import Mathlib

/-!
Verification development for the status reconciliation and worker
coordination core of the github-gei-tool repository.

Modelling conventions, used throughout:
* statuses and phases are the literal strings the TypeScript code uses;
* timestamps are integer milliseconds since the epoch, the value of
  new Date(x).getTime() on a valid ISO timestamp string;
* optional record fields are Option values; the JavaScript truthiness test
  on such a field corresponds to Option.isSome, and on a string argument to
  the string being nonempty;
* the repository snapshot carries two revisions of the state module: the
  file src/src/state.ts (six statuses, debounced saves) and the later
  revision bundled with the worker files (nine statuses).  They are
  embedded as the namespaces StateV1 and StateV2 respectively, and each
  worker function uses the revision it was written against.
-/

namespace GeiTool

/-- Value of the JavaScript expression Math.round(diffMs / 1000): for every
real x, Math.round x is the floor of x + 1/2, also for negative x. -/
def jsRoundMsToSec (diffMs : Int) : Int :=
  Int.fdiv (diffMs + 500) 1000

/-- Lowercasing of a JavaScript string by toLowerCase.  Char.toLower lowers
exactly the ASCII range, which covers every status and phase alphabet the
program compares against. -/
def jsToLower (s : String) : String :=
  String.mk (s.toList.map Char.toLower)

/-- Repository record, interface RepoState of src/src/state.ts.  The logs
and metadata blobs take no part in any operation verified here and are
omitted from the embedding. -/
structure RepoState where
  name : String
  visibility : String
  migrationId : Option String := none
  status : String
  queuedAt : Option Int := none
  startedAt : Option Int := none
  endedAt : Option Int := none
  elapsedSeconds : Option Int := none
  lastUpdate : Option Int := none
  lastPolledAt : Option Int := none
  lastChecked : Option Int := none
  lastPushed : Option Int := none
  errorMessage : Option String := none
  deriving Repr, DecidableEq

namespace StateV1

/-- Function setStatus of src/src/state.ts (lines 121-148), the six-status
revision: startedAt is stamped on first entry into syncing, endedAt and
elapsedSeconds on first entry into synced or failed, and the errorMessage
argument is copied only when it is truthy (present and nonempty). -/
def setStatus (nowMs : Int) (newStatus : String) (errorMessage : Option String)
    (repo : RepoState) : RepoState :=
  let r1 : RepoState := { repo with status := newStatus, lastUpdate := some nowMs }
  let r2 : RepoState :=
    match errorMessage with
    | some msg => if msg ≠ "" then { r1 with errorMessage := some msg } else r1
    | none => r1
  let r3 : RepoState :=
    if newStatus = "syncing" ∧ r2.startedAt = none then
      { r2 with startedAt := some nowMs }
    else r2
  if (newStatus = "synced" ∨ newStatus = "failed") ∧ r3.endedAt = none then
    match r3.startedAt with
    | some startMs =>
        { r3 with endedAt := some nowMs,
                  elapsedSeconds := some (jsRoundMsToSec (nowMs - startMs)) }
    | none => { r3 with endedAt := some nowMs }
  else r3

end StateV1

namespace StateV2

/-- Function setStatus of the worker-era state module (src/unnamed, nine
statuses): startedAt is stamped on first entry into any status other than
queued, endedAt and elapsedSeconds on first entry into imported or failed. -/
def setStatus (nowMs : Int) (newStatus : String) (errorMessage : Option String)
    (repo : RepoState) : RepoState :=
  let r1 : RepoState := { repo with status := newStatus, lastUpdate := some nowMs }
  let r2 : RepoState :=
    match errorMessage with
    | some msg => if msg ≠ "" then { r1 with errorMessage := some msg } else r1
    | none => r1
  let r3 : RepoState :=
    if newStatus ≠ "queued" ∧ r2.startedAt = none then
      { r2 with startedAt := some nowMs }
    else r2
  if (newStatus = "imported" ∨ newStatus = "failed") ∧ r3.endedAt = none then
    match r3.startedAt with
    | some startMs =>
        { r3 with endedAt := some nowMs,
                  elapsedSeconds := some (jsRoundMsToSec (nowMs - startMs)) }
    | none => { r3 with endedAt := some nowMs }
  else r3

/-- Partial update object passed to upsertRepo.  Only the fields that some
caller in the repository actually passes are modelled; a some value means
the key is present in the update object.  The lastPushed update carries an
Option because the status worker passes a value that may itself be
undefined, and a key present with value undefined still overwrites. -/
structure RepoUpdates where
  name : Option String := none
  visibility : Option String := none
  status : Option String := none
  migrationId : Option String := none
  queuedAt : Option Int := none
  startedAt : Option Int := none
  lastChecked : Option Int := none
  lastPushed : Option (Option Int) := none
  deriving Repr, DecidableEq

/-- Spread of an update object over an existing record, the TypeScript
expression with repo fields first and update fields second. -/
def applyUpdates (u : RepoUpdates) (repo : RepoState) : RepoState :=
  { repo with
    name := u.name.getD repo.name,
    visibility := u.visibility.getD repo.visibility,
    status := u.status.getD repo.status,
    migrationId := match u.migrationId with
      | some m => some m
      | none => repo.migrationId,
    queuedAt := match u.queuedAt with
      | some t => some t
      | none => repo.queuedAt,
    startedAt := match u.startedAt with
      | some t => some t
      | none => repo.startedAt,
    lastChecked := match u.lastChecked with
      | some t => some t
      | none => repo.lastChecked,
    lastPushed := match u.lastPushed with
      | some v => v
      | none => repo.lastPushed }

/-- Function upsertRepo: creates a defaulted record when the name is absent
from the store (no lastUpdate stamp on that path), otherwise merges the
updates into the existing record and stamps lastUpdate. -/
def upsertRepo (nowMs : Int) (repoName : String) (updates : RepoUpdates)
    (existing : Option RepoState) : RepoState :=
  match existing with
  | none =>
      applyUpdates updates { name := repoName, visibility := "private", status := "unknown" }
  | some repo =>
      { applyUpdates updates repo with lastUpdate := some nowMs }

end StateV2

namespace Github

/-- Membership in the JavaScript regular-expression class backslash-s
(whitespace), by code point. -/
def isJsSpace (c : Char) : Bool :=
  c == ' ' || c == '\t' || c == '\n' || c == '\r' || c.toNat == 11 || c.toNat == 12 ||
  c.toNat == 160 || c.toNat == 5760 || (8192 ≤ c.toNat && c.toNat ≤ 8202) ||
  c.toNat == 8232 || c.toNat == 8233 || c.toNat == 8239 || c.toNat == 8287 ||
  c.toNat == 12288 || c.toNat == 65279

/-- Membership in the class of a colon or whitespace, written [:\x5cs] in the
extraction patterns. -/
def isColonOrSpace (c : Char) : Bool :=
  c == ':' || isJsSpace c

/-- Membership in the identifier class of the third extraction pattern,
[RM_0-9A-Za-z] under the case-insensitive flag, which is the ASCII
alphanumerics plus underscore. -/
def isMigIdChar (c : Char) : Bool :=
  c.isAlphanum || c == '_'

/-- Case-insensitive literal match: the pattern is given lowercased; on
success the remaining subject is returned. -/
def matchLitCI : List Char → List Char → Option (List Char)
  | [], rest => some rest
  | _ :: _, [] => none
  | p :: ps, c :: cs => if c.toLower = p then matchLitCI ps cs else none

/-- Greedy one-or-more repetition of a character class, returning the
matched run and the remaining subject.  In every pattern below the class is
disjoint from the first character of what follows it, so greedy matching
without backtracking coincides with the regular-expression semantics. -/
def plusRun (cls : Char → Bool) (cs : List Char) : Option (List Char × List Char) :=
  let m := cs.takeWhile cls
  if m.isEmpty then none else some (m, cs.dropWhile cls)

/-- First extraction pattern of extractMigrationId, anchored at a position:
the word migration, whitespace, the word id, colons or whitespace, then the
captured digit run. -/
def patOneAt (cs : List Char) : Option (List Char) :=
  (matchLitCI "migration".toList cs).bind fun r1 =>
  (plusRun isJsSpace r1).bind fun pr2 =>
  (matchLitCI "id".toList pr2.2).bind fun r3 =>
  (plusRun isColonOrSpace r3).bind fun pr4 =>
  (plusRun Char.isDigit pr4.2).map fun pr5 => pr5.1

/-- Tail of the second extraction pattern: whitespace, the word id, colons
or whitespace, then the captured digit run. -/
def patTwoEnd (r : List Char) : Option (List Char) :=
  (plusRun isJsSpace r).bind fun pr1 =>
  (matchLitCI "id".toList pr1.2).bind fun r2 =>
  (plusRun isColonOrSpace r2).bind fun pr3 =>
  (plusRun Char.isDigit pr3.2).map fun pr4 => pr4.1

/-- Second extraction pattern after the optional plural s: the optional
group of whitespace and the word with is tried greedily and dropped on
failure, as a backtracking regular-expression engine would. -/
def patTwoAfterS (r : List Char) : Option (List Char) :=
  match (plusRun isJsSpace r).bind (fun pr =>
          (matchLitCI "with".toList pr.2).bind fun r2 => patTwoEnd r2) with
  | some cap => some cap
  | none => patTwoEnd r

/-- Second extraction pattern of extractMigrationId, anchored at a
position: the word queued, whitespace, the word migration, an optional
plural s, an optional whitespace-with group, then the common tail. -/
def patTwoAt (cs : List Char) : Option (List Char) :=
  (matchLitCI "queued".toList cs).bind fun r1 =>
  (plusRun isJsSpace r1).bind fun pr2 =>
  (matchLitCI "migration".toList pr2.2).bind fun r3 =>
  match r3 with
  | c :: rest =>
      if c.toLower = 's' then
        match patTwoAfterS rest with
        | some cap => some cap
        | none => patTwoAfterS r3
      else patTwoAfterS r3
  | [] => patTwoAfterS r3

/-- Third extraction pattern of extractMigrationId, anchored at a position:
an opening parenthesis, the letters ID and a colon, optional whitespace,
the captured identifier run, a closing parenthesis. -/
def patThreeAt (cs : List Char) : Option (List Char) :=
  match cs with
  | c :: r1 =>
      if c = '(' then
        (matchLitCI "id:".toList r1).bind fun r2 =>
        (plusRun isMigIdChar (r2.dropWhile isJsSpace)).bind fun pr =>
        match pr.2 with
        | c2 :: _ => if c2 = ')' then some pr.1 else none
        | [] => none
      else none
  | [] => none

/-- Fourth extraction pattern of extractMigrationId, anchored at a
position: the word id, colons or whitespace, then the captured digit run. -/
def patFourAt (cs : List Char) : Option (List Char) :=
  (matchLitCI "id".toList cs).bind fun r1 =>
  (plusRun isColonOrSpace r1).bind fun pr2 =>
  (plusRun Char.isDigit pr2.2).map fun pr3 => pr3.1

/-- Leftmost match: try the anchored pattern at every start position from
the left, as String.prototype.match does. -/
def scanFirst (f : List Char → Option (List Char)) : List Char → Option (List Char)
  | [] => f []
  | c :: cs =>
    match f (c :: cs) with
    | some cap => some cap
    | none => scanFirst f cs

/-- One pattern applied to the whole output with the JavaScript guard on
the match and its first group being truthy (the group is nonempty). -/
def matchCapture (f : List Char → Option (List Char)) (output : String) : Option String :=
  match scanFirst f output.toList with
  | some cap => if cap.isEmpty then none else some (String.mk cap)
  | none => none

/-- Function extractMigrationId (src/unnamed/part_004, lines 149-165): the
four patterns are tried in order and the first truthy captured group is
returned. -/
def extractMigrationId (output : String) : Option String :=
  match matchCapture patOneAt output with
  | some m => some m
  | none =>
    match matchCapture patTwoAt output with
    | some m => some m
    | none =>
      match matchCapture patThreeAt output with
      | some m => some m
      | none => matchCapture patFourAt output

/-- Result object of needsMigration in src/github.ts. -/
structure NeedsResult where
  needs : Bool
  lastPushed : Option Int := none
  deriving Repr, DecidableEq

/-- Decision function needsMigration (src/unnamed/part_004): the two remote
lookups are passed in as values — existence of the target repository, and
the last-pushed timestamps of source and target (none models both a missing
field and a failed lookup, which the code conflates through null). -/
def needsMigration (existsInTarget : Bool) (sourceLastUpdated targetLastUpdated : Option Int) :
    NeedsResult :=
  if existsInTarget = false then
    { needs := true, lastPushed := sourceLastUpdated }
  else
    match sourceLastUpdated, targetLastUpdated with
    | some s, some t =>
        if s > t then { needs := true, lastPushed := some s }
        else { needs := false, lastPushed := some s }
    | s, _ => { needs := true, lastPushed := s }

end Github

namespace ProgressWorker

/-- Phase mapping mapGitHubStatus, identical in
src/src/workers/progressWorker.ts and src/src/migrator.ts: lowercase the
reported phase, then map it onto the internal status strings with unknown
as the default for anything unrecognized. -/
def mapGitHubStatus (githubState : String) : String :=
  let s := jsToLower githubState
  if s = "pending" ∨ s = "queued" then "queued"
  else if s = "exporting" then "exporting"
  else if s = "exported" then "exported"
  else if s = "importing" then "importing"
  else if s = "imported" then "imported"
  else if s = "failed" then "failed"
  else "unknown"

/-- Status report returned by getMigrationStatus for an outstanding
migration identifier. -/
structure ToolStatus where
  state : String
  failureReason : Option String := none
  deriving Repr, DecidableEq

/-- Grace period of the progress worker in milliseconds, the literal 60000
of src/src/workers/progressWorker.ts. -/
def gracePeriodMs : Int := 60000

/-- Function pollSingleRepo of src/src/workers/progressWorker.ts (lines
40-99) on a single record.  The remote call getMigrationStatus is passed in
as its value (none models both the not-found reply and the record having no
migrationId makes the call never happen).  Note the direct field writes to
lastPolledAt and lastChecked before the conditional setStatus. -/
def pollSingleRepo (nowMs : Int) (tool : Option ToolStatus) (repo : RepoState) : RepoState :=
  match repo.migrationId with
  | none =>
    match repo.startedAt, repo.endedAt with
    | some startMs, none =>
      if nowMs - startMs > gracePeriodMs then
        StateV2.setStatus nowMs "unknown"
          (some "Migration status lost - may have completed or failed") repo
      else repo
    | _, _ => repo
  | some _ =>
    match tool with
    | none =>
      match repo.startedAt with
      | some startMs =>
        if nowMs - startMs > gracePeriodMs then
          StateV2.setStatus nowMs "unknown"
            (some "Migration status not found - may have completed or failed") repo
        else repo
      | none => repo
    | some toolStatus =>
      let stamped : RepoState := { repo with lastPolledAt := some nowMs, lastChecked := some nowMs }
      let newStatus := mapGitHubStatus toolStatus.state
      if newStatus ≠ stamped.status then
        StateV2.setStatus nowMs newStatus toolStatus.failureReason stamped
      else stamped

end ProgressWorker

namespace MigrationWorker

/-- Helper isUnsynced of src/src/workers/migrationWorker.ts. -/
def isUnsynced (status : String) : Bool :=
  decide (status = "needs_migration" ∨ status = "unsynced")

/-- Result of running the external gh command, as resolved by runGh. -/
structure GhResult where
  stdout : String
  stderr : String
  code : Int
  deriving Repr, DecidableEq

/-- Function queueSingleRepo of src/src/workers/migrationWorker.ts (lines
27-82) on the selected record: a non-zero exit or an unextractable
identifier moves the record to failed; success stores the identifier and
stamps queuedAt and startedAt through upsertRepo on the existing record.
The catch branch of the source is unreachable because runGh resolves
instead of rejecting, and the state operations do not throw. -/
def queueSingleRepo (nowMs : Int) (ghResult : GhResult) (repo : RepoState) : RepoState :=
  if ghResult.code ≠ 0 then
    StateV2.setStatus nowMs "failed" (some ghResult.stderr) repo
  else
    match Github.extractMigrationId ghResult.stdout with
    | none =>
        StateV2.setStatus nowMs "failed" (some "Could not extract migration ID from output") repo
    | some migId =>
        StateV2.upsertRepo nowMs repo.name
          { migrationId := some migId, status := some "queued",
            queuedAt := some nowMs, startedAt := some nowMs } (some repo)

/-- Function queueNextRepo of src/src/workers/migrationWorker.ts: find the
first record whose status is unsynced, queue it, and return its name; the
store is a mapping with unique names, so mutating the found record by name
is replacing the first such element of the listing. -/
def queueNextRepo (nowMs : Int) (ghResult : GhResult) :
    List RepoState → Option String × List RepoState
  | [] => (none, [])
  | repo :: rest =>
    if isUnsynced repo.status then
      (some repo.name, queueSingleRepo nowMs ghResult repo :: rest)
    else
      let tail := queueNextRepo nowMs ghResult rest
      (tail.1, repo :: tail.2)

end MigrationWorker

namespace Server

/-- Constant MAX_CONCURRENT_MIGRATIONS of src/src/server.ts, line 46. -/
def MAX_CONCURRENT_MIGRATIONS : Nat := 10

/-- The active-set membership test of src/src/server.ts, the array literal
of the statuses queued, exporting, exported and importing. -/
def isInProgressStatus (status : String) : Bool :=
  decide (status = "queued" ∨ status = "exporting" ∨ status = "exported" ∨ status = "importing")

/-- Count of records in the active set, the filtered length computed at the
top of runMigrationWorkerTick. -/
def countInProgress (repos : List RepoState) : Nat :=
  (repos.filter fun r => isInProgressStatus r.status).length

/-- The queueing loop inside runMigrationWorkerTick: at most slotsAvailable
attempts, stopping early when queueNextRepo finds no unsynced record.  The
gh invocation of each attempt is supplied by the oracle indexed by attempt
number. -/
def runTickLoop (nowMs : Int) (gh : Nat → MigrationWorker.GhResult) :
    Nat → Nat → List RepoState → List RepoState
  | 0, _, repos => repos
  | slots + 1, attempt, repos =>
    match MigrationWorker.queueNextRepo nowMs (gh attempt) repos with
    | (none, repos2) => repos2
    | (some _, repos2) => runTickLoop nowMs gh slots (attempt + 1) repos2

/-- Function runMigrationWorkerTick of src/src/server.ts (lines 362-409):
compute the free slots below the ceiling and try to queue that many
records; at or above the ceiling the tick only reschedules itself. -/
def runMigrationWorkerTick (nowMs : Int) (gh : Nat → MigrationWorker.GhResult)
    (repos : List RepoState) : List RepoState :=
  let inProgress := countInProgress repos
  if inProgress < MAX_CONCURRENT_MIGRATIONS then
    runTickLoop nowMs gh (MAX_CONCURRENT_MIGRATIONS - inProgress) 0 repos
  else repos

end Server

namespace StatusWorker

/-- Sort key of the batch ordering in checkOldestRepos: the lastChecked
epoch milliseconds, with zero for a never-checked record. -/
def lastCheckedKey (r : RepoState) : Int :=
  r.lastChecked.getD 0

/-- The filter of checkOldestRepos over the non-unclassified records: skip
unknown, skip the active migration statuses, keep never-checked records and
records whose last check is strictly older than the minimum age. -/
def needsCheckFilter (nowMs minAgeMs : Int) (r : RepoState) : Bool :=
  if r.status = "unknown" then false
  else if r.status = "queued" ∨ r.status = "exporting" ∨ r.status = "exported" ∨
          r.status = "importing" then false
  else
    match r.lastChecked with
    | none => true
    | some t => nowMs - t > minAgeMs

/-- Batch selection of checkOldestRepos (src/src/workers/statusWorker.ts,
lines 5-68): all unclassified records when any exist, otherwise the oldest
batchSize of the aged records, sorted ascending by the lastChecked key; the
JavaScript sort with a numeric comparator is a stable ascending sort,
modelled by mergeSort. -/
def selectReposToCheck (nowMs : Int) (minAgeMinutes : Int) (batchSize : Nat)
    (repos : List RepoState) : List RepoState :=
  let minAgeMs := minAgeMinutes * 60 * 1000
  let unknownRepos := repos.filter fun r => decide (r.status = "unknown")
  let others :=
    (((repos.filter (needsCheckFilter nowMs minAgeMs)).mergeSort
        fun a b => decide (lastCheckedKey a ≤ lastCheckedKey b)).take batchSize)
  if unknownRepos.length > 0 then unknownRepos else others

end StatusWorker

namespace StateV1

/-- In-memory side of the debounced persistence machinery of
src/src/state.ts: the dirty flag, the number of pending resolvers pushed by
saveState calls whose debounced flush has not run yet, and the in-memory
repository mapping that doSaveState serializes. -/
structure SaveStore where
  isDirty : Bool
  pendingCount : Nat
  repos : List RepoState
  deriving Repr, DecidableEq

/-- Function saveState (lines 160-180): mark dirty, push a resolver for the
returned promise, reschedule the debounced flush. -/
def saveStateReq (s : SaveStore) : SaveStore :=
  { s with isDirty := true, pendingCount := s.pendingCount + 1 }

/-- Observable outcome of one flushPendingSaves call: what the caller
awaiting the flush sees, and the settlement delivered to each promise
previously returned by saveState.  Except.ok is fulfilment, Except.error is
rejection. -/
structure FlushOutcome where
  flushResult : Except String Unit
  savePromiseOutcomes : List (Except String Unit)
  store : SaveStore
  deriving Repr

/-- Function flushPendingSaves (lines 182-214) with the result of the
underlying doSaveState write passed in as a value.  When clean it resolves
every pending promise and succeeds without writing.  When dirty it clears
the flag, captures the resolvers, runs the write, and on either outcome
calls the captured resolvers — the catch branch resolves them before
rethrowing, so a write failure reaches only the flush caller.  doSaveState
never mutates the in-memory state. -/
def flushPendingSaves (writeResult : Except String Unit) (s : SaveStore) : FlushOutcome :=
  if s.isDirty = false then
    { flushResult := Except.ok (),
      savePromiseOutcomes := List.replicate s.pendingCount (Except.ok ()),
      store := { s with pendingCount := 0 } }
  else
    match writeResult with
    | Except.ok _ =>
      { flushResult := Except.ok (),
        savePromiseOutcomes := List.replicate s.pendingCount (Except.ok ()),
        store := { s with isDirty := false, pendingCount := 0 } }
    | Except.error e =>
      { flushResult := Except.error e,
        savePromiseOutcomes := List.replicate s.pendingCount (Except.ok ()),
        store := { s with isDirty := false, pendingCount := 0 } }

end StateV1

/-! ## Helper lemmas about the state operations -/

theorem setStatusV2_status (nowMs : Int) (st : String) (msg : Option String) (r : RepoState) :
    (StateV2.setStatus nowMs st msg r).status = st := by
  cases msg <;> simp only [StateV2.setStatus] <;> split_ifs <;> (try split) <;> rfl

theorem setStatusV2_lastUpdate (nowMs : Int) (st : String) (msg : Option String) (r : RepoState) :
    (StateV2.setStatus nowMs st msg r).lastUpdate = some nowMs := by
  cases msg <;> simp only [StateV2.setStatus] <;> split_ifs <;> (try split) <;> rfl

theorem setStatusV2_migrationId (nowMs : Int) (st : String) (msg : Option String) (r : RepoState) :
    (StateV2.setStatus nowMs st msg r).migrationId = r.migrationId := by
  cases msg <;> simp only [StateV2.setStatus] <;> split_ifs <;> (try split) <;> rfl

theorem setStatusV2_errorMessage_of_ne (nowMs : Int) (st : String) (msg : String)
    (r : RepoState) (h : msg ≠ "") :
    (StateV2.setStatus nowMs st (some msg) r).errorMessage = some msg := by
  simp only [StateV2.setStatus]
  split_ifs <;> (try split) <;> simp_all

/-! ## Claim theorems -/

/-- C2: needsMigration returns needs equal to true exactly when the target
repository does not exist, or the source or target last-push timestamp is
unavailable, or the source last-push timestamp is strictly newer than the
target one; and whenever the target does not exist the result is true, so
the record is never judged in sync in that case. -/
theorem needsMigration_decision (existsInTarget : Bool) (sourceLU targetLU : Option Int) :
    ((Github.needsMigration existsInTarget sourceLU targetLU).needs = true ↔
      existsInTarget = false ∨ sourceLU = none ∨ targetLU = none ∨
        ∃ s t, sourceLU = some s ∧ targetLU = some t ∧ s > t) ∧
    (Github.needsMigration false sourceLU targetLU).needs = true := by
  constructor
  · cases existsInTarget <;> rcases sourceLU with _ | s <;> rcases targetLU with _ | t <;>
      simp [Github.needsMigration] <;> split_ifs <;> simp_all
  · simp [Github.needsMigration]

/-- C5: mapGitHubStatus is a total, case-insensitive mapping: after
lowercasing, pending and queued map to queued, the three migrating-class
sub-phases map to themselves, imported maps to the success status, failed
to failed, and every other string to the default unknown, so its value is
always one of the seven internal status strings. -/
theorem mapGitHubStatus_spec (s : String) :
    ((jsToLower s = "pending" ∨ jsToLower s = "queued") →
      ProgressWorker.mapGitHubStatus s = "queued") ∧
    (jsToLower s = "exporting" → ProgressWorker.mapGitHubStatus s = "exporting") ∧
    (jsToLower s = "exported" → ProgressWorker.mapGitHubStatus s = "exported") ∧
    (jsToLower s = "importing" → ProgressWorker.mapGitHubStatus s = "importing") ∧
    (jsToLower s = "imported" → ProgressWorker.mapGitHubStatus s = "imported") ∧
    (jsToLower s = "failed" → ProgressWorker.mapGitHubStatus s = "failed") ∧
    (jsToLower s ∉ (["pending", "queued", "exporting", "exported", "importing",
        "imported", "failed"] : List String) →
      ProgressWorker.mapGitHubStatus s = "unknown") ∧
    ProgressWorker.mapGitHubStatus s ∈
      (["queued", "exporting", "exported", "importing", "imported", "failed",
        "unknown"] : List String) := by
  refine ⟨?_, ?_, ?_, ?_, ?_, ?_, ?_, ?_⟩
  · rintro (h | h) <;> simp [ProgressWorker.mapGitHubStatus, h]
  · intro h
    simp [ProgressWorker.mapGitHubStatus, h]
  · intro h
    simp [ProgressWorker.mapGitHubStatus, h]
  · intro h
    simp [ProgressWorker.mapGitHubStatus, h]
  · intro h
    simp [ProgressWorker.mapGitHubStatus, h]
  · intro h
    simp [ProgressWorker.mapGitHubStatus, h]
  · intro h
    simp only [List.mem_cons, List.not_mem_nil, or_false, not_or] at h
    obtain ⟨h1, h2, h3, h4, h5, h6, h7⟩ := h
    simp [ProgressWorker.mapGitHubStatus, h1, h2, h3, h4, h5, h6, h7]
  · simp only [ProgressWorker.mapGitHubStatus, List.mem_cons, List.not_mem_nil]
    split_ifs <;> simp

/-- Witness for C5 at concrete phase strings of every kind, including a
mixed-case one and an unrecognized one. -/
theorem mapGitHubStatus_spec_witness :
    ProgressWorker.mapGitHubStatus "Pending" = "queued" ∧
    ProgressWorker.mapGitHubStatus "EXPORTED" = "exported" ∧
    ProgressWorker.mapGitHubStatus "bogus_phase" = "unknown" := by
  refine ⟨(mapGitHubStatus_spec "Pending").1 (by decide),
    (mapGitHubStatus_spec "EXPORTED").2.2.1 (by decide),
    (mapGitHubStatus_spec "bogus_phase").2.2.2.2.2.2.1 (by decide)⟩

/-- Witness for C2 at a concrete input: an absent target forces needs. -/
theorem needsMigration_decision_witness :
    (Github.needsMigration false (some 5) none).needs = true :=
  (needsMigration_decision false (some 5) none).2

/-- C4: on a record whose startedAt is set, the first setStatus call with a
terminal status (synced or failed) stamps endedAt with the call time and
sets elapsedSeconds to the difference of endedAt and startedAt rounded to
whole seconds, leaving startedAt untouched; any later terminal setStatus
call leaves endedAt and elapsedSeconds unchanged. -/
theorem setStatus_terminal_timing (nowMs : Int) (newStatus : String) (msg : Option String)
    (repo : RepoState) (startMs : Int)
    (hstart : repo.startedAt = some startMs)
    (hterm : newStatus = "synced" ∨ newStatus = "failed") :
    (repo.endedAt = none →
      (StateV1.setStatus nowMs newStatus msg repo).startedAt = some startMs ∧
      (StateV1.setStatus nowMs newStatus msg repo).endedAt = some nowMs ∧
      (StateV1.setStatus nowMs newStatus msg repo).elapsedSeconds =
        some (jsRoundMsToSec (nowMs - startMs))) ∧
    (∀ endMs, repo.endedAt = some endMs →
      (StateV1.setStatus nowMs newStatus msg repo).endedAt = some endMs ∧
      (StateV1.setStatus nowMs newStatus msg repo).elapsedSeconds = repo.elapsedSeconds) := by
  have hsync : ¬ newStatus = "syncing" := by
    rcases hterm with h | h <;> subst h <;> decide
  constructor
  · intro hend
    cases msg <;>
      simp [StateV1.setStatus, hstart, hend, hsync, hterm] <;>
      split_ifs <;> simp_all
  · intro endMs hend
    cases msg <;>
      simp [StateV1.setStatus, hstart, hend, hsync, hterm] <;>
      split_ifs <;> simp_all

/-- Witness for C4: a first terminal transition at 10500 milliseconds from
a start at 1200 milliseconds yields an elapsed time of 9 seconds, and a
repeated terminal transition leaves the stamps alone. -/
theorem setStatus_terminal_timing_witness :
    ((StateV1.setStatus 10500 "synced" none
        { name := "a", visibility := "private", status := "syncing",
          startedAt := some 1200 }).endedAt = some 10500 ∧
      (StateV1.setStatus 10500 "synced" none
        { name := "a", visibility := "private", status := "syncing",
          startedAt := some 1200 }).elapsedSeconds = some (jsRoundMsToSec (10500 - 1200))) ∧
    ((StateV1.setStatus 99999 "failed" none
        { name := "a", visibility := "private", status := "synced",
          startedAt := some 1200, endedAt := some 10500,
          elapsedSeconds := some 9 }).endedAt = some 10500 ∧
      (StateV1.setStatus 99999 "failed" none
        { name := "a", visibility := "private", status := "synced",
          startedAt := some 1200, endedAt := some 10500,
          elapsedSeconds := some 9 }).elapsedSeconds = some 9) := by
  have h1 := (setStatus_terminal_timing 10500 "synced" none
    { name := "a", visibility := "private", status := "syncing", startedAt := some 1200 }
    1200 rfl (Or.inl rfl)).1 rfl
  have h2 := (setStatus_terminal_timing 99999 "failed" none
    { name := "a", visibility := "private", status := "synced",
      startedAt := some 1200, endedAt := some 10500, elapsedSeconds := some 9 }
    1200 rfl (Or.inr rfl)).2 10500 rfl
  exact ⟨⟨h1.2.1, h1.2.2⟩, ⟨h2.1, h2.2⟩⟩

/-- C10: a setStatus call whose errorMessage argument is absent or the
empty string leaves the errorMessage field of the record unchanged, for
every status including a successful terminal transition after a failure. -/
theorem setStatus_keeps_errorMessage (nowMs : Int) (newStatus : String)
    (msg : Option String) (repo : RepoState)
    (h : msg = none ∨ msg = some "") :
    (StateV1.setStatus nowMs newStatus msg repo).errorMessage = repo.errorMessage := by
  rcases h with h | h <;> subst h <;>
    simp only [StateV1.setStatus] <;> split_ifs <;> (try split) <;> simp_all

/-- Witness for C10: a synced transition without a message after a failure
retains the failure text. -/
theorem setStatus_keeps_errorMessage_witness :
    (StateV1.setStatus 500 "synced" none
      { name := "a", visibility := "private", status := "failed",
        errorMessage := some "organization not found" }).errorMessage =
      some "organization not found" :=
  setStatus_keeps_errorMessage 500 "synced" none
    { name := "a", visibility := "private", status := "failed",
      errorMessage := some "organization not found" } (Or.inl rfl)

/-- Concrete record used by the persistence scenarios. -/
def demoRepo : RepoState :=
  { name := "demo", visibility := "private", status := "synced" }

/-- Counterexample to C7: with one saveState promise pending and a failing
write, the flush caller observes the rejection, but the promise previously
returned by saveState is fulfilled, not rejected — the code resolves the
captured resolvers before rethrowing — so the error does not reach every
caller awaiting the save.  The in-memory state is unchanged. -/
theorem flushPendingSaves_resolves_on_error :
    (StateV1.flushPendingSaves (Except.error "disk full")
        (StateV1.saveStateReq { isDirty := false, pendingCount := 0, repos := [demoRepo] })).flushResult
      = Except.error "disk full" ∧
    (StateV1.flushPendingSaves (Except.error "disk full")
        (StateV1.saveStateReq { isDirty := false, pendingCount := 0, repos := [demoRepo] })).savePromiseOutcomes
      = [Except.ok ()] ∧
    (StateV1.flushPendingSaves (Except.error "disk full")
        (StateV1.saveStateReq { isDirty := false, pendingCount := 0, repos := [demoRepo] })).savePromiseOutcomes
      ≠ [Except.error "disk full"] ∧
    (StateV1.flushPendingSaves (Except.error "disk full")
        (StateV1.saveStateReq { isDirty := false, pendingCount := 0, repos := [demoRepo] })).store.repos
      = [demoRepo] := by
  refine ⟨rfl, rfl, ?_, rfl⟩
  intro h
  simp [StateV1.flushPendingSaves, StateV1.saveStateReq, List.replicate] at h

/-- C7 as amended: when the store is dirty and the underlying write fails,
the caller awaiting flushPendingSaves observes the rejection, every promise
previously returned by saveState is fulfilled rather than rejected (the
code deliberately resolves them to avoid hanging callers), and the
in-memory state is unchanged and authoritative. -/
theorem flushPendingSaves_error_semantics (s : StateV1.SaveStore) (e : String)
    (hdirty : s.isDirty = true) :
    (StateV1.flushPendingSaves (Except.error e) s).flushResult = Except.error e ∧
    (StateV1.flushPendingSaves (Except.error e) s).savePromiseOutcomes =
      List.replicate s.pendingCount (Except.ok ()) ∧
    (StateV1.flushPendingSaves (Except.error e) s).store.repos = s.repos := by
  simp [StateV1.flushPendingSaves, hdirty]

/-- Witness for the amended C7 at a concrete dirty store. -/
theorem flushPendingSaves_error_semantics_witness :
    (StateV1.flushPendingSaves (Except.error "EACCES")
        { isDirty := true, pendingCount := 2, repos := [demoRepo] }).flushResult
      = Except.error "EACCES" :=
  (flushPendingSaves_error_semantics
    { isDirty := true, pendingCount := 2, repos := [demoRepo] } "EACCES" rfl).1

/-- Every status in the active set differs from unknown. -/
theorem isInProgressStatus_ne_unknown (s : String)
    (h : Server.isInProgressStatus s = true) : s ≠ "unknown" := by
  simp only [Server.isInProgressStatus, decide_eq_true_eq] at h
  rcases h with h | h | h | h <;> subst h <;> decide

/-- Concrete record refuting C3: no migrationId, ninety seconds elapsed
since startedAt, but endedAt is set. -/
def lostRepoC3 : RepoState :=
  { name := "c", visibility := "private", status := "queued",
    startedAt := some 0, endedAt := some 50000 }

/-- Counterexample to C3: a polled record in the active set with no
migrationId whose startedAt lies more than the grace period in the past is
nevertheless left unchanged — not transitioned to the lost status — because
the missing-identifier branch additionally requires endedAt to be unset. -/
theorem pollSingleRepo_lost_counterexample :
    lostRepoC3.migrationId = none ∧
    lostRepoC3.startedAt = some 0 ∧
    (100000 : Int) - 0 > ProgressWorker.gracePeriodMs ∧
    Server.isInProgressStatus lostRepoC3.status = true ∧
    ProgressWorker.pollSingleRepo 100000 none lostRepoC3 = lostRepoC3 ∧
    (ProgressWorker.pollSingleRepo 100000 none lostRepoC3).status ≠ "unknown" := by
  refine ⟨rfl, rfl, by decide, by decide, rfl, by decide⟩

/-- C3 as amended: a record polled while in the active set is transitioned
to the lost status (stored as unknown) exactly when startedAt is set and
strictly more than the sixty-second grace period has elapsed, and — in the
missing-migrationId case only — endedAt is additionally unset; in every
other missing-record situation the record is left entirely unchanged. -/
theorem pollSingleRepo_lost_grace (nowMs : Int) (tool : Option ProgressWorker.ToolStatus)
    (repo : RepoState) (hactive : Server.isInProgressStatus repo.status = true) :
    (repo.migrationId = none →
      (((ProgressWorker.pollSingleRepo nowMs tool repo).status = "unknown") ↔
        (∃ startMs, repo.startedAt = some startMs ∧ repo.endedAt = none ∧
          nowMs - startMs > ProgressWorker.gracePeriodMs)) ∧
      ((¬ ∃ startMs, repo.startedAt = some startMs ∧ repo.endedAt = none ∧
          nowMs - startMs > ProgressWorker.gracePeriodMs) →
        ProgressWorker.pollSingleRepo nowMs tool repo = repo)) ∧
    (repo.migrationId.isSome →
      (((ProgressWorker.pollSingleRepo nowMs none repo).status = "unknown") ↔
        (∃ startMs, repo.startedAt = some startMs ∧
          nowMs - startMs > ProgressWorker.gracePeriodMs)) ∧
      ((¬ ∃ startMs, repo.startedAt = some startMs ∧
          nowMs - startMs > ProgressWorker.gracePeriodMs) →
        ProgressWorker.pollSingleRepo nowMs none repo = repo)) := by
  have hne : repo.status ≠ "unknown" := isInProgressStatus_ne_unknown _ hactive
  constructor
  · intro hmid
    unfold ProgressWorker.pollSingleRepo
    rw [hmid]
    rcases hstart : repo.startedAt with _ | startMs <;>
      rcases hend : repo.endedAt with _ | endMs <;> simp_all
    split_ifs with hgt
    · simp [setStatusV2_status, hgt]
    · simp_all
  · intro hmid
    obtain ⟨mid, hmid⟩ := Option.isSome_iff_exists.mp hmid
    unfold ProgressWorker.pollSingleRepo
    rw [hmid]
    rcases hstart : repo.startedAt with _ | startMs <;> simp_all
    split_ifs with hgt
    · simp [setStatusV2_status, hgt]
    · simp_all

/-- Witness for the amended C3, the ninety-second and thirty-second
scenarios of the specification: with migrationId set and the tool
reporting not-found, ninety seconds elapsed yields the lost status and
thirty seconds leaves the record unchanged. -/
theorem pollSingleRepo_lost_grace_witness :
    (ProgressWorker.pollSingleRepo 90000 none
      { name := "c", visibility := "private", status := "queued",
        migrationId := some "7", startedAt := some (-1) }).status = "unknown" ∧
    ProgressWorker.pollSingleRepo 30000 none
      { name := "c", visibility := "private", status := "queued",
        migrationId := some "7", startedAt := some 0 } =
      { name := "c", visibility := "private", status := "queued",
        migrationId := some "7", startedAt := some 0 } := by
  constructor
  · exact ((pollSingleRepo_lost_grace 90000 none
      { name := "c", visibility := "private", status := "queued",
        migrationId := some "7", startedAt := some (-1) } (by decide)).2 (by decide)).1.mpr
      ⟨-1, rfl, by decide⟩
  · exact ((pollSingleRepo_lost_grace 30000 none
      { name := "c", visibility := "private", status := "queued",
        migrationId := some "7", startedAt := some 0 } (by decide)).2 (by decide)).2
      (by rintro ⟨startMs, hs, hgt⟩; cases hs; revert hgt; decide)

/-- Concrete record refuting C9: an active record polled while its mapped
phase is unchanged. -/
def polledRepoC9 : RepoState :=
  { name := "r", visibility := "private", status := "exporting",
    migrationId := some "7", startedAt := some 0, lastUpdate := some 5 }

/-- Counterexample to C9: when the tool reports the same phase, the
progress worker writes lastPolledAt and lastChecked directly onto the
record without any store operation stamping lastUpdate, which keeps its old
value. -/
theorem pollSingleRepo_mutates_without_lastUpdate :
    (ProgressWorker.pollSingleRepo 90000 (some { state := "exporting" }) polledRepoC9).lastPolledAt
      ≠ polledRepoC9.lastPolledAt ∧
    (ProgressWorker.pollSingleRepo 90000 (some { state := "exporting" }) polledRepoC9).lastChecked
      ≠ polledRepoC9.lastChecked ∧
    (ProgressWorker.pollSingleRepo 90000 (some { state := "exporting" }) polledRepoC9).lastUpdate
      = polledRepoC9.lastUpdate ∧
    polledRepoC9.lastUpdate ≠ some 90000 := by
  refine ⟨by decide, by decide, by decide, by decide⟩

/-- C9 as amended: setStatus and upsertRepo on an existing record always
stamp lastUpdate with the mutation time; the one further mutation a worker
performs is the progress worker poll, which either leaves the record
unchanged, goes through setStatus (stamping lastUpdate), or writes exactly
the lastPolledAt and lastChecked stamps directly without touching
lastUpdate. -/
theorem worker_mutations_stamp_lastUpdate (nowMs : Int)
    (tool : Option ProgressWorker.ToolStatus) (repo : RepoState) :
    (∀ st msg, (StateV2.setStatus nowMs st msg repo).lastUpdate = some nowMs) ∧
    (∀ repoName u ex, (StateV2.upsertRepo nowMs repoName u (some ex)).lastUpdate = some nowMs) ∧
    (ProgressWorker.pollSingleRepo nowMs tool repo = repo ∨
     (ProgressWorker.pollSingleRepo nowMs tool repo).lastUpdate = some nowMs ∨
     ProgressWorker.pollSingleRepo nowMs tool repo =
       { repo with lastPolledAt := some nowMs, lastChecked := some nowMs }) := by
  refine ⟨fun st msg => setStatusV2_lastUpdate nowMs st msg repo,
    fun repoName u ex => rfl, ?_⟩
  unfold ProgressWorker.pollSingleRepo
  rcases repo.migrationId with _ | mid
  · rcases repo.startedAt with _ | startMs <;> rcases repo.endedAt with _ | endMs <;>
      simp only
    · simp
    · simp
    · split_ifs
      · exact Or.inr (Or.inl (setStatusV2_lastUpdate ..))
      · simp
    · simp
  · rcases tool with _ | toolStatus
    · rcases repo.startedAt with _ | startMs <;> simp only
      · simp
      · split_ifs
        · exact Or.inr (Or.inl (setStatusV2_lastUpdate ..))
        · simp
    · simp only
      split_ifs
      · exact Or.inr (Or.inl (setStatusV2_lastUpdate ..))
      · exact Or.inr (Or.inr rfl)

/-- C6: a queueing attempt with a non-zero exit or an unextractable
identifier moves the record to failed without storing an identifier (the
captured stderr is recorded when nonempty, the conditional write of
setStatus skipping an empty message); a successful attempt stores the
extracted identifier, moves the record to queued and stamps queuedAt and
startedAt; and no attempted record ends up without either an identifier or
the failed status. -/
theorem queueSingleRepo_outcome (nowMs : Int) (gh : MigrationWorker.GhResult)
    (repo : RepoState) :
    (gh.code ≠ 0 →
      (MigrationWorker.queueSingleRepo nowMs gh repo).status = "failed" ∧
      (MigrationWorker.queueSingleRepo nowMs gh repo).migrationId = repo.migrationId ∧
      (gh.stderr ≠ "" →
        (MigrationWorker.queueSingleRepo nowMs gh repo).errorMessage = some gh.stderr)) ∧
    (gh.code = 0 → Github.extractMigrationId gh.stdout = none →
      (MigrationWorker.queueSingleRepo nowMs gh repo).status = "failed" ∧
      (MigrationWorker.queueSingleRepo nowMs gh repo).migrationId = repo.migrationId ∧
      (MigrationWorker.queueSingleRepo nowMs gh repo).errorMessage =
        some "Could not extract migration ID from output") ∧
    (∀ migId, gh.code = 0 → Github.extractMigrationId gh.stdout = some migId →
      (MigrationWorker.queueSingleRepo nowMs gh repo).migrationId = some migId ∧
      (MigrationWorker.queueSingleRepo nowMs gh repo).status = "queued" ∧
      (MigrationWorker.queueSingleRepo nowMs gh repo).queuedAt = some nowMs ∧
      (MigrationWorker.queueSingleRepo nowMs gh repo).startedAt = some nowMs ∧
      (MigrationWorker.queueSingleRepo nowMs gh repo).lastUpdate = some nowMs) ∧
    ((MigrationWorker.queueSingleRepo nowMs gh repo).status = "failed" ∨
      (MigrationWorker.queueSingleRepo nowMs gh repo).migrationId.isSome) := by
  refine ⟨?_, ?_, ?_, ?_⟩
  · intro hcode
    rw [MigrationWorker.queueSingleRepo, if_pos hcode]
    exact ⟨setStatusV2_status .., setStatusV2_migrationId ..,
      fun hmsg => setStatusV2_errorMessage_of_ne nowMs "failed" gh.stderr repo hmsg⟩
  · intro hcode hex
    rw [MigrationWorker.queueSingleRepo, if_neg (by simp [hcode]), hex]
    exact ⟨setStatusV2_status .., setStatusV2_migrationId ..,
      setStatusV2_errorMessage_of_ne nowMs "failed" _ repo (by decide)⟩
  · intro migId hcode hex
    rw [MigrationWorker.queueSingleRepo, if_neg (by simp [hcode]), hex]
    exact ⟨rfl, rfl, rfl, rfl, rfl⟩
  · rw [MigrationWorker.queueSingleRepo]
    split_ifs with hcode
    · exact Or.inl (setStatusV2_status ..)
    · rcases hex : Github.extractMigrationId gh.stdout with _ | migId
      · exact Or.inl (setStatusV2_status ..)
      · exact Or.inr rfl

/-- Witness for C6 at concrete gh results: a failed invocation with error
text, an output without an identifier, and a successful queueing. -/
theorem queueSingleRepo_outcome_witness :
    (MigrationWorker.queueSingleRepo 7 { stdout := "", stderr := "organization not found", code := 1 }
      { name := "b", visibility := "private", status := "needs_migration" }).status = "failed" ∧
    (MigrationWorker.queueSingleRepo 7 { stdout := "done", stderr := "", code := 0 }
      { name := "b", visibility := "private", status := "needs_migration" }).errorMessage =
        some "Could not extract migration ID from output" ∧
    (MigrationWorker.queueSingleRepo 7 { stdout := "Migration ID: 42", stderr := "", code := 0 }
      { name := "b", visibility := "private", status := "needs_migration" }).migrationId = some "42" := by
  refine ⟨((queueSingleRepo_outcome 7 { stdout := "", stderr := "organization not found", code := 1 }
      { name := "b", visibility := "private", status := "needs_migration" }).1 (by decide)).1,
    ((queueSingleRepo_outcome 7 { stdout := "done", stderr := "", code := 0 }
      { name := "b", visibility := "private", status := "needs_migration" }).2.1 rfl (by decide)).2.2,
    ((queueSingleRepo_outcome 7 { stdout := "Migration ID: 42", stderr := "", code := 0 }
      { name := "b", visibility := "private", status := "needs_migration" }).2.2.1 "42" rfl
        (by decide)).1⟩

/-- The active count over a cons splits off the head contribution. -/
theorem countInProgress_cons (r : RepoState) (rs : List RepoState) :
    Server.countInProgress (r :: rs) =
      (if Server.isInProgressStatus r.status then 1 else 0) + Server.countInProgress rs := by
  simp only [Server.countInProgress, List.filter]
  split <;> simp_all [Nat.add_comm]

/-- One queueNextRepo call raises the active count by at most one: it
replaces at most one record, and a single record contributes at most one to
the count. -/
theorem countInProgress_queueNextRepo_le (nowMs : Int) (gh : MigrationWorker.GhResult)
    (repos : List RepoState) :
    Server.countInProgress (MigrationWorker.queueNextRepo nowMs gh repos).2 ≤
      Server.countInProgress repos + 1 := by
  induction repos with
  | nil => simp [MigrationWorker.queueNextRepo, Server.countInProgress]
  | cons r rs ih =>
    rw [MigrationWorker.queueNextRepo]
    split_ifs with hu
    · simp only
      rw [countInProgress_cons, countInProgress_cons]
      have h1 : (if Server.isInProgressStatus
          (MigrationWorker.queueSingleRepo nowMs gh r).status then 1 else 0) ≤ 1 := by
        split <;> omega
      omega
    · simp only
      rw [countInProgress_cons, countInProgress_cons]
      omega

/-- The queueing loop raises the active count by at most the number of
remaining slots. -/
theorem countInProgress_runTickLoop_le (nowMs : Int) (gh : Nat → MigrationWorker.GhResult) :
    ∀ (slots attempt : Nat) (repos : List RepoState),
      Server.countInProgress (Server.runTickLoop nowMs gh slots attempt repos) ≤
        Server.countInProgress repos + slots := by
  intro slots
  induction slots with
  | zero => intro attempt repos; simp [Server.runTickLoop]
  | succ n ih =>
    intro attempt repos
    rw [Server.runTickLoop]
    split
    · next repos2 heq =>
        have h1 : Server.countInProgress repos2 ≤ Server.countInProgress repos + 1 := by
          have h := countInProgress_queueNextRepo_le nowMs (gh attempt) repos
          rw [heq] at h
          exact h
        omega
    · next s repos2 heq =>
        have h1 : Server.countInProgress repos2 ≤ Server.countInProgress repos + 1 := by
          have h := countInProgress_queueNextRepo_le nowMs (gh attempt) repos
          rw [heq] at h
          exact h
        have h2 := ih (attempt + 1) repos2
        omega

/-- C1: a migration worker tick started with the active set within the
ceiling of ten ends with the active set still within the ceiling, because
it queues at most the free slots below the ceiling; and a tick started at
or above the ceiling queues nothing and leaves the store untouched. -/
theorem runMigrationWorkerTick_ceiling (nowMs : Int) (gh : Nat → MigrationWorker.GhResult)
    (repos : List RepoState) :
    (Server.countInProgress repos ≤ Server.MAX_CONCURRENT_MIGRATIONS →
      Server.countInProgress (Server.runMigrationWorkerTick nowMs gh repos) ≤
        Server.MAX_CONCURRENT_MIGRATIONS) ∧
    (Server.MAX_CONCURRENT_MIGRATIONS ≤ Server.countInProgress repos →
      Server.runMigrationWorkerTick nowMs gh repos = repos) := by
  constructor
  · intro hle
    rw [Server.runMigrationWorkerTick]
    split_ifs with hlt
    · have := countInProgress_runTickLoop_le nowMs gh
        (Server.MAX_CONCURRENT_MIGRATIONS - Server.countInProgress repos) 0 repos
      omega
    · exact hle
  · intro hge
    rw [Server.runMigrationWorkerTick]
    split_ifs with hlt
    · omega
    · rfl

/-- Witness for C1: a store holding one record of each active status plus a
backlog record is at count four, and a tick keeps the count within ten. -/
theorem runMigrationWorkerTick_ceiling_witness :
    Server.countInProgress
      (Server.runMigrationWorkerTick 0
        (fun _ => { stdout := "Migration ID: 9", stderr := "", code := 0 })
        [{ name := "a", visibility := "private", status := "queued" },
         { name := "b", visibility := "private", status := "importing" },
         { name := "c", visibility := "private", status := "needs_migration" }]) ≤
      Server.MAX_CONCURRENT_MIGRATIONS :=
  (runMigrationWorkerTick_ceiling 0
    (fun _ => { stdout := "Migration ID: 9", stderr := "", code := 0 })
    [{ name := "a", visibility := "private", status := "queued" },
     { name := "b", visibility := "private", status := "importing" },
     { name := "c", visibility := "private", status := "needs_migration" }]).1 (by decide)

/-- Every record passing the aged-records filter is not unclassified, is
outside the active set, and was never checked or checked longer ago than
the minimum age. -/
theorem needsCheckFilter_spec (nowMs minAgeMs : Int) (r : RepoState)
    (h : StatusWorker.needsCheckFilter nowMs minAgeMs r = true) :
    r.status ≠ "unknown" ∧ Server.isInProgressStatus r.status = false ∧
    (r.lastChecked = none ∨ ∃ t, r.lastChecked = some t ∧ nowMs - t > minAgeMs) := by
  unfold StatusWorker.needsCheckFilter at h
  split_ifs at h with h1 h2
  refine ⟨h1, by simp [Server.isInProgressStatus, h2], ?_⟩
  rcases hc : r.lastChecked with _ | t
  · exact Or.inl rfl
  · rw [hc] at h
    exact Or.inr ⟨t, rfl, by simpa using h⟩

/-- C8: when any record is unclassified, the selected batch is exactly the
unclassified records (all of them, regardless of batch size); otherwise the
batch holds at most batchSize records drawn from the store, none of them in
an active migration status or unclassified, each never checked or checked
more than the minimum age ago, ordered ascending by the lastChecked key
with never-checked records carrying key zero. -/
theorem checkOldestRepos_selection (nowMs minAgeMinutes : Int) (batchSize : Nat)
    (repos : List RepoState) :
    ((repos.filter fun r => decide (r.status = "unknown")) ≠ [] →
      (∀ r ∈ StatusWorker.selectReposToCheck nowMs minAgeMinutes batchSize repos,
        r.status = "unknown") ∧
      (∀ r ∈ repos, r.status = "unknown" →
        r ∈ StatusWorker.selectReposToCheck nowMs minAgeMinutes batchSize repos)) ∧
    ((repos.filter fun r => decide (r.status = "unknown")) = [] →
      (StatusWorker.selectReposToCheck nowMs minAgeMinutes batchSize repos).length ≤ batchSize ∧
      (∀ r ∈ StatusWorker.selectReposToCheck nowMs minAgeMinutes batchSize repos,
        r ∈ repos ∧ Server.isInProgressStatus r.status = false ∧ r.status ≠ "unknown" ∧
        (r.lastChecked = none ∨ ∃ t, r.lastChecked = some t ∧
          nowMs - t > minAgeMinutes * 60 * 1000)) ∧
      List.Pairwise (fun a b => StatusWorker.lastCheckedKey a ≤ StatusWorker.lastCheckedKey b)
        (StatusWorker.selectReposToCheck nowMs minAgeMinutes batchSize repos)) := by
  constructor
  · intro hne
    have hpos : 0 < (repos.filter fun r => decide (r.status = "unknown")).length :=
      List.length_pos.mpr hne
    have hsel : StatusWorker.selectReposToCheck nowMs minAgeMinutes batchSize repos =
        repos.filter fun r => decide (r.status = "unknown") := by
      unfold StatusWorker.selectReposToCheck
      rw [if_pos hpos]
    constructor
    · intro r hr
      rw [hsel] at hr
      exact of_decide_eq_true (List.mem_filter.mp hr).2
    · intro r hr hru
      rw [hsel]
      exact List.mem_filter.mpr ⟨hr, by simp [hru]⟩
  · intro hnil
    have hzero : ¬ 0 < (repos.filter fun r => decide (r.status = "unknown")).length := by
      rw [hnil]
      simp
    have hsel : StatusWorker.selectReposToCheck nowMs minAgeMinutes batchSize repos =
        ((repos.filter
            (StatusWorker.needsCheckFilter nowMs (minAgeMinutes * 60 * 1000))).mergeSort
          fun a b =>
            decide (StatusWorker.lastCheckedKey a ≤ StatusWorker.lastCheckedKey b)).take
          batchSize := by
      unfold StatusWorker.selectReposToCheck
      rw [if_neg hzero]
    refine ⟨?_, ?_, ?_⟩
    · rw [hsel]
      simp [List.length_take]
    · intro r hr
      rw [hsel] at hr
      have hmem : r ∈ repos.filter
          (StatusWorker.needsCheckFilter nowMs (minAgeMinutes * 60 * 1000)) := by
        have hms := List.take_subset _ _ hr
        rwa [List.mem_mergeSort] at hms
      have hspec := needsCheckFilter_spec nowMs (minAgeMinutes * 60 * 1000) r
        (List.of_mem_filter hmem)
      exact ⟨List.mem_of_mem_filter hmem, hspec.2.1, hspec.1, hspec.2.2⟩
    · rw [hsel]
      have hsorted : ((repos.filter
            (StatusWorker.needsCheckFilter nowMs (minAgeMinutes * 60 * 1000))).mergeSort
          fun a b =>
            decide (StatusWorker.lastCheckedKey a ≤ StatusWorker.lastCheckedKey b)).Pairwise
          (fun a b =>
            decide (StatusWorker.lastCheckedKey a ≤ StatusWorker.lastCheckedKey b) = true) :=
        List.sorted_mergeSort
          (fun a b c hab hbc => by
            simp only [decide_eq_true_eq] at hab hbc ⊢
            omega)
          (fun a b => by
            simp only [Bool.or_eq_true, decide_eq_true_eq]
            omega)
          (repos.filter (StatusWorker.needsCheckFilter nowMs (minAgeMinutes * 60 * 1000)))
      have hpair := List.Pairwise.sublist (List.take_sublist batchSize _) hsorted
      exact hpair.imp fun h => of_decide_eq_true h

/-- Witness for C8: with one unclassified record present, the batch picks
exactly the unclassified records. -/
theorem checkOldestRepos_selection_witness :
    ∀ r ∈ StatusWorker.selectReposToCheck 1000000 5 2
      [{ name := "a", visibility := "private", status := "synced", lastChecked := some 100 },
       { name := "u", visibility := "private", status := "unknown" }],
      r.status = "unknown" :=
  ((checkOldestRepos_selection 1000000 5 2
    [{ name := "a", visibility := "private", status := "synced", lastChecked := some 100 },
     { name := "u", visibility := "private", status := "unknown" }]).1 (by decide)).1

end GeiTool
